import Mathlib

/-!
Verification of the SponsorBlockTV-Web device control plane
(`src/backend/sponsorblocktv_web/main.py` and `device_overrides.py`)
against its natural-language specification.

Shallow embedding conventions:
* Python floats (positions, monotonic times, offsets, speeds) are embedded
  as exact rationals `ℚ`; all comparisons in the source are order/equality
  comparisons, which `ℚ` models faithfully.
* The per-device `DeviceListener` object is embedded as an explicit state
  record; each `async` method that the claims are about becomes a pure
  state-transition function.  External effects that a claim needs to
  observe (stats writes) are returned as explicit event lists.
* `asyncio.Task` fields hold at most one pending task; a pending scheduled
  skip is embedded as an `Option SkipPlan` (`none` = no pending task, which
  is also the state after the task's `finally` block ran).
-/

namespace SBTV

/-- Python truthiness of an optional string (`if cpn:` / `if video_id:`):
`None` and the empty string are falsy. -/
def truthyStr : Option String → Bool
  | some s => !s.isEmpty
  | none => false

/-- A skip range as returned by the segment provider
(`{"start": .., "end": .., "UUID": [..], "categories": [..]}`).
The source's `end` key is embedded as the field `stop` (`end` is a Lean
keyword). -/
structure Segment where
  start : ℚ
  stop : ℚ
  UUID : List String
  categories : List String
deriving DecidableEq, Repr

namespace DeviceListener

/-- `DeviceListener.SEGMENT_EPSILON = 0.25` (main.py line 36). -/
def SEGMENT_EPSILON : ℚ := 0.25

/-- `DeviceListener.WATCH_FLUSH_INTERVAL = 5.0` (main.py line 37). -/
def WATCH_FLUSH_INTERVAL : ℚ := 5

/-- `DeviceListener._select_next_segment` (main.py lines 339-352), with the
listener's `self.completed_segment_uuids` passed explicitly.  The source's
`video_id` parameter is unused there and omitted here. -/
def select_next_segment (completed : Finset String) (segments : List Segment)
    (position : ℚ) : Option Segment :=
  match segments with
  | [] => none
  | segment :: rest =>
    if segment.start > segment.stop then
      select_next_segment completed rest position
    else if segment.UUID ≠ [] ∧ ∀ uuid ∈ segment.UUID, uuid ∈ completed then
      select_next_segment completed rest position
    else
      let within_current := segment.start ≤ position ∧ position < segment.stop - SEGMENT_EPSILON
      let future_segment := segment.start > position
      if within_current ∨ future_segment then some segment
      else select_next_segment completed rest position

/-- The acceptance condition of `_select_next_segment`, stated the way the
claim states it: kept iff `start ≤ end`, its uuid set is not a non-empty set
entirely contained in the completed set, and it is within (up to ε) or in
the future. -/
def segmentQualifies (completed : Finset String) (position : ℚ) (segment : Segment) : Prop :=
  segment.start ≤ segment.stop ∧
  ¬(segment.UUID ≠ [] ∧ ∀ uuid ∈ segment.UUID, uuid ∈ completed) ∧
  ((segment.start ≤ position ∧ position < segment.stop - SEGMENT_EPSILON) ∨
    segment.start > position)

instance (completed : Finset String) (position : ℚ) (segment : Segment) :
    Decidable (segmentQualifies completed position segment) := by
  unfold segmentQualifies; infer_instance

/-- The local `start_next_segment` computation of `_schedule_skip`
(main.py line 276): the plan's effective start. -/
def start_next_segment (segment : Segment) (position : ℚ) : ℚ :=
  if segment.start ≤ position ∧ position < segment.stop then position else segment.start

/-- The wait computation of `_wait_and_skip` (main.py lines 364-369):
`time_to_next = (start_next_segment - position - elapsed) / playback_speed - offset`,
clamped below at 0. -/
def time_to_next (start_next position elapsed playback_speed offset : ℚ) : ℚ :=
  let t := (start_next - position - elapsed) / playback_speed - offset
  if t < 0 then 0 else t

end DeviceListener

/-- The data captured by a pending scheduled-skip task: the listener fields
`skip_task_video` / `skip_task_segment_start` (main.py lines 41-42, 288-289)
together with the arguments closed over by the `_wait_and_skip` task created
at main.py lines 297-306. -/
structure SkipPlan where
  video : Option String
  planStart : ℚ
  planEnd : ℚ
  uuids : List String
  categories : List String
  position : ℚ
  timeStart : ℚ
deriving DecidableEq, Repr

/-- The playback-state fields `process_playstatus` reads, after the
`_extract_state_value` / `_extract_position` coercions (main.py lines
323-337): `state` is the extracted integer state and `currentTime` the
extracted position.  `videoId` / `cpn` are `None` or the raw strings. -/
structure PlayState where
  videoId : Option String
  cpn : Option String
  state : Int
  currentTime : ℚ
deriving DecidableEq, Repr

/-- The mutable per-device fields of `DeviceListener` that the claims are
about (main.py lines 40-64).  `skipTask = none` means no pending scheduled
skip (`self.skip_task` is `None` or already done). -/
structure ControllerState where
  skipTask : Option SkipPlan
  current_video_id : Option String
  current_cpn : Option String
  completed_segment_uuids : Finset String
  playback_started_at : Option ℚ
  last_watch_emit_at : Option ℚ
  last_state_value : Option Int
  last_video_position : ℚ
deriving DecidableEq

namespace DeviceListener

/-- `DeviceListener._cancel_skip_task` (main.py lines 308-321): cancels and
joins the pending task and nulls `skip_task`, `skip_task_video`,
`skip_task_segment_start` (all represented inside `skipTask` here). -/
def cancel_skip_task (st : ControllerState) : ControllerState :=
  { st with skipTask := none }

/-- `DeviceListener._schedule_skip` (main.py lines 266-306), with the fetched
segment list and extracted position passed in as in the source. -/
def schedule_skip (st : ControllerState) (video_id : Option String)
    (segments : List Segment) (position time_start : ℚ) : ControllerState :=
  match select_next_segment st.completed_segment_uuids segments position with
  | none => cancel_skip_task st
  | some next_segment =>
    let sns := start_next_segment next_segment position
    let same_plan : Bool :=
      match st.skipTask with
      | some t => decide (t.video = video_id) && decide (|t.planStart - sns| < 0.05)
      | none => false
    if same_plan then st
    else
      { cancel_skip_task st with
        skipTask := some
          { video := video_id
            planStart := sns
            planEnd := next_segment.stop
            uuids := next_segment.UUID
            categories := next_segment.categories
            position := position
            timeStart := time_start } }

/-- The `last_emit = self.last_watch_emit_at or self.playback_started_at`
idiom (main.py lines 202, 213): Python `or` falls through on a falsy left
operand, i.e. on `None` and on `0.0`. -/
def watch_last_emit (last_watch_emit_at : Option ℚ) (started : ℚ) : ℚ :=
  match last_watch_emit_at with
  | some e => if e = 0 then started else e
  | none => started

/-- `DeviceListener._flush_watch_time` (main.py lines 210-218).  The second
component lists the deltas recorded to the stats sink
(`stats.record_watch_time`). -/
def flush_watch_time (st : ControllerState) (now : ℚ) : ControllerState × List ℚ :=
  match st.playback_started_at with
  | none => (st, [])
  | some started =>
    let last_emit := watch_last_emit st.last_watch_emit_at started
    let delta := now - last_emit
    if delta ≤ 0 then (st, [])
    else ({ st with last_watch_emit_at := some now }, [delta])

/-- `DeviceListener._finalize_watch_session` (main.py lines 220-223): flush,
then close the session.  Also the watch-session part of shutdown
(`cancel`, main.py line 387, calls this). -/
def finalize_watch_session (st : ControllerState) (now : ℚ) : ControllerState × List ℚ :=
  let r := flush_watch_time st now
  ({ r.1 with playback_started_at := none, last_watch_emit_at := none }, r.2)

/-- `DeviceListener._record_watch_time` (main.py lines 192-208).  The
`_ensure_watch_heartbeat` task spawn at line 200 has no effect on these
fields and is not modelled. -/
def record_watch_time (st : ControllerState) (ps : PlayState) (time_start : ℚ) :
    ControllerState × List ℚ :=
  let r :=
    if ps.state = 1 then
      match st.playback_started_at with
      | none =>
        ({ st with playback_started_at := some time_start,
                   last_watch_emit_at := some time_start }, ([] : List ℚ))
      | some started =>
        let last_emit := watch_last_emit st.last_watch_emit_at started
        if time_start - last_emit ≥ WATCH_FLUSH_INTERVAL then flush_watch_time st time_start
        else (st, [])
    else finalize_watch_session st time_start
  ({ r.1 with last_state_value := some ps.state, last_video_position := ps.currentTime }, r.2)

/-- The segment list `process_playstatus` actually works with (main.py lines
159, 172-181): the fetched list when `video_id` is truthy, the initial empty
list otherwise. -/
def effective_segments (ps : PlayState) (fetched : List Segment) : List Segment :=
  if truthyStr ps.videoId then fetched else []

/-- `DeviceListener.process_playstatus` (main.py lines 157-190), with the
segment-provider response for the update's video passed in as `fetched`.
The stats calls `mark_device_seen` / `record_video_started` touch no listener
state and are not modelled; the second component lists the watch-time deltas
recorded. -/
def process_playstatus (st : ControllerState) (ps : PlayState)
    (fetched : List Segment) (time_start : ℚ) : ControllerState × List ℚ :=
  let video_id := ps.videoId
  let cpn := ps.cpn
  let should_reset_watch :=
    (truthyStr cpn && decide (cpn ≠ st.current_cpn)) ||
      (truthyStr video_id && decide (video_id ≠ st.current_video_id))
  let r1 :=
    if should_reset_watch then finalize_watch_session st time_start else (st, [])
  let st1 := r1.1
  let st2 :=
    if truthyStr cpn && decide (cpn ≠ st1.current_cpn) then
      { st1 with current_cpn := cpn, completed_segment_uuids := ∅ }
    else st1
  let st3 :=
    if truthyStr video_id && decide (video_id ≠ st2.current_video_id) then
      { st2 with current_video_id := video_id, completed_segment_uuids := ∅ }
    else st2
  let segments := effective_segments ps fetched
  let r2 := record_watch_time st3 ps time_start
  let st4 := r2.1
  let st5 :=
    if ps.state = 1 then
      if segments ≠ [] then schedule_skip st4 video_id segments ps.currentTime time_start
      else st4
    else cancel_skip_task st4
  (st5, r1.2 ++ r2.2)

end DeviceListener

/-- One effect issued by `DeviceListener.skip` (main.py lines 251-264):
the cancellable sleep, the lounge seek, the segment-provider mark-viewed
report, and the stats write `record_segment_skip(device, len(uuids),
saved_duration, categories)`. -/
inductive SkipAction where
  | sleep (seconds : ℚ)
  | seekTo (position : ℚ)
  | markViewed (uuids : List String)
  | recordSegmentSkip (count : ℕ) (saved_duration : ℚ) (categories : List String)
deriving DecidableEq, Repr

namespace DeviceListener

/-- `DeviceListener.skip` (main.py lines 251-264) as its sequence of await
steps: each inner list is a batch of operations issued concurrently
(`asyncio.gather` of freshly created tasks), and consecutive batches are
separated by an `await` — a later batch starts only after every operation of
the earlier batch returned.  The source sleeps when `time_to > 0`, then
`await`s the gather of `seek_to(position)` and `mark_viewed_segments(uuids)`,
and only then `await`s `stats.record_segment_skip`. -/
def skipSteps (time_to position : ℚ) (uuids : List String) (saved_duration : ℚ)
    (categories : List String) : List (List SkipAction) :=
  (if time_to > 0 then [[SkipAction.sleep time_to]] else []) ++
    [[SkipAction.seekTo position, SkipAction.markViewed uuids],
      [SkipAction.recordSegmentSkip uuids.length saved_duration categories]]

/-- `DeviceListener._enqueue_state` (main.py lines 133-141) acting on the
capacity-1 `state_queue` (`asyncio.Queue(maxsize=1)`, main.py line 62),
embedded as an `Option`: `put_nowait` into an empty queue stores the update;
on `QueueFull` the pending update is removed (`get_nowait`) and the new one
stored. -/
def enqueue_state {α : Type} (queue : Option α) (x : α) : Option α :=
  match queue with
  | none => some x
  | some _ => some x

end DeviceListener

/-! ## Overrides sanitization (`device_overrides.py`) -/

/-- A Python value as stored in the `overrides` column / passed to
`sanitize_stored_overrides`: JSON-style data (`None`, booleans, strings,
integers, lists, dicts). -/
inductive JVal where
  | null
  | bool (b : Bool)
  | str (s : String)
  | num (n : ℤ)
  | arr (xs : List JVal)
  | obj (kvs : List (String × JVal))

/-- Python truthiness (`if not raw:` / `entry.get("id") or ...`). -/
def pyTruthy : JVal → Bool
  | .null => false
  | .bool b => b
  | .str s => !s.isEmpty
  | .num n => decide (n ≠ 0)
  | .arr xs => !xs.isEmpty
  | .obj kvs => !kvs.isEmpty

mutual

/-- Python `repr` of a `JVal` (used by `str` on lists/dicts). -/
def pyRepr : JVal → String
  | .null => "None"
  | .bool true => "True"
  | .bool false => "False"
  | .str s => "'" ++ s ++ "'"
  | .num n => toString n
  | .arr xs => "[" ++ pyReprList xs ++ "]"
  | .obj kvs => "\x7b" ++ pyReprObj kvs ++ "\x7d"

/-- `", ".join(repr(x) for x in xs)`. -/
def pyReprList : List JVal → String
  | [] => ""
  | [x] => pyRepr x
  | x :: y :: rest => pyRepr x ++ ", " ++ pyReprList (y :: rest)

/-- `", ".join(f"repr(k): repr(v)")`. -/
def pyReprObj : List (String × JVal) → String
  | [] => ""
  | [kv] => "'" ++ kv.1 ++ "': " ++ pyRepr kv.2
  | kv :: kw :: rest => "'" ++ kv.1 ++ "': " ++ pyRepr kv.2 ++ ", " ++ pyReprObj (kw :: rest)

end

/-- Python `str` of a `JVal`: like `repr` except a string stays unquoted. -/
def pyStr : JVal → String
  | .str s => s
  | v => pyRepr v

/-- Python `str.strip()`: drop unicode whitespace from both ends,
implemented over the character list so that it evaluates by kernel
reduction. -/
def pyStrip (s : String) : String :=
  String.mk (((s.data.dropWhile Char.isWhitespace).reverse.dropWhile
    Char.isWhitespace).reverse)

/-- Python `str.lower()`. -/
def pyLower (s : String) : String :=
  String.mk (s.data.map Char.toLower)

/-- `dict.get` on the embedded dict; keys are unique in a Python dict, so
first match suffices. -/
def jget (kvs : List (String × JVal)) (k : String) : Option JVal :=
  (kvs.find? (fun kv => decide (kv.1 = k))).map (fun kv => kv.2)

/-- A present JSON `null` is the Python value `None`: fold it into the
absent case, since the source tests `is None` / truthiness on it. -/
def asPyOpt : Option JVal → Option JVal
  | some .null => none
  | o => o

/-- `ALLOWED_AUTOMATION_KEYS` (device_overrides.py line 13). -/
def ALLOWED_AUTOMATION_KEYS : List String :=
  ["skip_ads", "mute_ads", "skip_count_tracking", "auto_play"]

/-- `_normalize_bool` (device_overrides.py lines 17-26). -/
def _normalize_bool : JVal → Option Bool
  | .bool b => some b
  | .str s =>
    let normalized := pyLower (pyStrip s)
    if normalized ∈ ["1", "true", "yes", "on"] then some true
    else if normalized ∈ ["0", "false", "no", "off"] then some false
    else none
  | _ => none

/-- `dict` assignment `d[k] = v` on an association list with string keys:
replace the value of an existing key, otherwise append. -/
def alInsertBool (al : List (String × Bool)) (k : String) (v : Bool) :
    List (String × Bool) :=
  match al with
  | [] => [(k, v)]
  | kv :: rest => if kv.1 = k then (k, v) :: rest else kv :: alInsertBool rest k v

/-- `_normalize_automation` (device_overrides.py lines 29-40): keep only the
allowed keys whose value normalizes to a boolean.  Takes the result of
`payload.get("automation")` (`none` = absent/`None`). -/
def _normalize_automation : Option JVal → List (String × Bool)
  | some (.obj kvs) =>
    kvs.foldl
      (fun acc kv =>
        if kv.1 ∈ ALLOWED_AUTOMATION_KEYS then
          match _normalize_bool kv.2 with
          | some b => alInsertBool acc kv.1 b
          | none => acc
        else acc)
      []
  | _ => []

/-- `raw is None` on a `JVal`. -/
def JVal.isNull : JVal → Bool
  | .null => true
  | _ => false

/-- The entry loop of `_normalize_skip_categories` (device_overrides.py
lines 48-59): entries are skipped when `None` or blank, rejected
(`ValueError`) when outside the allowed category set, and deduplicated in
order. -/
def skip_categories_fold (allowed : List String) :
    List String → List JVal → Except String (List String)
  | acc, [] => .ok acc
  | acc, raw :: rest =>
    if raw.isNull then skip_categories_fold allowed acc rest
    else
      let value := pyStrip (pyStr raw)
      if value = "" then skip_categories_fold allowed acc rest
      else if value ∉ allowed then .error ("Invalid skip category: " ++ value)
      else if value ∈ acc then skip_categories_fold allowed acc rest
      else skip_categories_fold allowed (acc ++ [value]) rest

/-- `_normalize_skip_categories` (device_overrides.py lines 43-59):
`None` passes through as `none`; a non-list raises `ValueError`
(`Except.error`); list entries go through `skip_categories_fold`.  The
allowed set (`ALLOWED_SKIP_CATEGORIES`, built from `constants.skip_categories`,
a module not under `src/`) is passed in as `allowed`. -/
def _normalize_skip_categories (allowed : List String) :
    Option JVal → Except String (Option (List String))
  | none => .ok none
  | some (.arr xs) =>
    match skip_categories_fold allowed [] xs with
    | .ok normalized => .ok (some normalized)
    | .error e => .error e
  | some _ => .error "skip_categories must be a list"

/-- `_normalize_channel_entry` (device_overrides.py lines 62-81). -/
def _normalize_channel_entry (entry : JVal) : Option (String × String) :=
  let pair : Option JVal × Option JVal :=
    match entry with
    | .obj kvs =>
      let cid :=
        match asPyOpt (jget kvs "id") with
        | some v => if pyTruthy v then some v else asPyOpt (jget kvs "channel_id")
        | none => asPyOpt (jget kvs "channel_id")
      (cid, asPyOpt (jget kvs "name"))
    | .arr (x :: rest) => (asPyOpt (some x), asPyOpt rest.head?)
    | _ => (asPyOpt (some entry), none)
  match pair.1 with
  | none => none
  | some cv =>
    let channel_id := pyStrip (pyStr cv)
    if channel_id = "" then none
    else
      let name :=
        match pair.2 with
        | none => channel_id
        | some nv =>
          let s := pyStrip (pyStr nv)
          if s = "" then channel_id else s
      some (channel_id, name)

/-- `_normalize_channel_whitelist` (device_overrides.py lines 84-99):
`None` passes through; a non-list raises `ValueError`; entries normalize via
`_normalize_channel_entry` with order-preserving dedupe on the id. -/
def _normalize_channel_whitelist :
    Option JVal → Except String (Option (List (String × String)))
  | none => .ok none
  | some (.arr xs) =>
    .ok (some (xs.foldl
      (fun (acc : List (String × String)) raw =>
        match _normalize_channel_entry raw with
        | none => acc
        | some entry =>
          if acc.any (fun p => decide (p.1 = entry.1)) then acc
          else acc ++ [entry])
      []))
  | some _ => .error "channel_whitelist must be a list"

/-- A value of the sanitized overrides dict. -/
inductive OVal where
  | auto (m : List (String × Bool))
  | cats (l : List String)
  | chans (l : List (String × String))
deriving DecidableEq, Repr

/-- `normalize_overrides` (device_overrides.py lines 102-115): a non-dict
payload yields `\x7b\x7d`; otherwise the three known keys are normalized, a
`ValueError` from either list normalizer propagating as `Except.error`.  The
result dict is built in the source's key order. -/
def normalize_overrides (allowed : List String) : JVal → Except String (List (String × OVal))
  | .obj kvs =>
    let automation := _normalize_automation (asPyOpt (jget kvs "automation"))
    let withAuto : List (String × OVal) :=
      if automation ≠ [] then [("automation", OVal.auto automation)] else []
    match _normalize_skip_categories allowed (asPyOpt (jget kvs "skip_categories")) with
    | .error e => .error e
    | .ok skip_categories =>
      let withCats :=
        match skip_categories with
        | some l => withAuto ++ [("skip_categories", OVal.cats l)]
        | none => withAuto
      match _normalize_channel_whitelist (asPyOpt (jget kvs "channel_whitelist")) with
      | .error e => .error e
      | .ok channel_whitelist =>
        .ok
          (match channel_whitelist with
            | some l => withCats ++ [("channel_whitelist", OVal.chans l)]
            | none => withCats)
  | _ => .ok []

/-- The `raw` argument of `sanitize_stored_overrides`: either a Python
string (represented by its truthiness and its `json.loads` outcome — `none`
for `JSONDecodeError`) or any other Python value. -/
inductive StoredRaw where
  | jsonText (truthy : Bool) (parsed : Option JVal)
  | value (v : JVal)

/-- `sanitize_stored_overrides` (device_overrides.py lines 165-178): falsy
input and undecodable JSON yield `\x7b\x7d`; a `ValueError` from
`normalize_overrides` is caught and also yields `\x7b\x7d`. -/
def sanitize_stored_overrides (allowed : List String) : StoredRaw → List (String × OVal)
  | .jsonText truthy parsed =>
    if !truthy then []
    else
      match parsed with
      | none => []
      | some v =>
        match normalize_overrides allowed v with
        | .ok d => d
        | .error _ => []
  | .value v =>
    if !pyTruthy v then []
    else
      match normalize_overrides allowed v with
      | .ok d => d
      | .error _ => []

/-! ## Reconciler (`monitor_devices` and friends) -/

/-- `DeviceSnapshot` (main.py lines 19-24).  `offset` is the float seconds
value; `overrides` is the sanitized overrides dict, whose `dict` equality in
`_snapshot_changed` is abstracted as decidable equality on a parameter
type `O`. -/
structure DeviceSnapshot (O : Type) where
  screen_id : String
  name : String
  offset : ℚ
  overrides : O
deriving DecidableEq

/-- `ListenerHandle` (main.py lines 27-32): the reconciler-held handle.  The
listener object and its two tasks carry no reconciler-relevant state and are
not modelled; `start_listener` (main.py lines 572-583) builds a fresh handle
holding the snapshot it was started from. -/
structure ListenerHandle (O : Type) where
  snapshot : DeviceSnapshot O
deriving DecidableEq

/-- `_snapshot_changed` (main.py lines 465-470). -/
def _snapshot_changed {O : Type} [DecidableEq O]
    (existing fresh : DeviceSnapshot O) : Bool :=
  if existing.name ≠ fresh.name then true
  else if existing.overrides ≠ fresh.overrides then true
  else decide (|existing.offset - fresh.offset| > 1e-3)

/-- `dict` lookup on an association list (keys are unique in a Python dict,
so first match suffices). -/
def alLookup {β : Type} (al : List (String × β)) (k : String) : Option β :=
  (al.find? (fun kv => decide (kv.1 = k))).map (fun kv => kv.2)

/-- `dict` assignment `d[k] = v` on an association list: replace the value
of an existing key in place, otherwise append. -/
def alInsert {β : Type} : List (String × β) → String → β → List (String × β)
  | [], k, v => [(k, v)]
  | kv :: rest, k, v => if kv.1 = k then (k, v) :: rest else kv :: alInsert rest k v

/-- The body of the first `for` loop of `monitor_devices` (main.py lines
519-536) for one desired `(screen_id, snapshot)` pair, in a tick where every
start and stop succeeds: start a listener for an unknown screen_id; stop and
restart when the snapshot changed; otherwise leave the handle alone. -/
def monitor_step {O : Type} [DecidableEq O]
    (acc : List (String × ListenerHandle O)) (kv : String × DeviceSnapshot O) :
    List (String × ListenerHandle O) :=
  match alLookup acc kv.1 with
  | none => alInsert acc kv.1 ⟨kv.2⟩
  | some handle =>
    if _snapshot_changed handle.snapshot kv.2 then alInsert acc kv.1 ⟨kv.2⟩
    else acc

/-- One tick of `monitor_devices` (main.py lines 512-543) in which every
start and stop succeeds: the first loop walks the desired snapshots
(`monitor_step`); the second loop (lines 537-543) stops and removes every
listener whose screen_id is not desired.  The 5 s sleep and the exception
arms are not modelled. -/
def monitor_tick {O : Type} [DecidableEq O]
    (desired : List (String × DeviceSnapshot O))
    (listeners : List (String × ListenerHandle O)) :
    List (String × ListenerHandle O) :=
  (desired.foldl monitor_step listeners).filter
    (fun kv => (alLookup desired kv.1).isSome)

/-- Python `a or b` for an optional string (`str(name or normalized_id)`):
falls through on `None` and on the empty string. -/
def orStr (o : Option String) (d : String) : String :=
  match o with
  | some s => if s = "" then d else s
  | none => d

/-- The `_read` body of `_load_device_snapshots` (main.py lines 477-500):
each row `(screen_id, name, offset, overrides_raw)` from the `devices` table
is normalized — blank screen_ids are skipped, `offset` (milliseconds, `None`
falsy → 0) becomes seconds, `overrides` goes through
`sanitize_stored_overrides` — and assigned into the result dict. -/
def load_row (allowed : List String)
    (result : List (String × DeviceSnapshot (List (String × OVal))))
    (row : Option String × Option String × Option ℚ × StoredRaw) :
    List (String × DeviceSnapshot (List (String × OVal))) :=
  let normalized_id := pyStrip (orStr row.1 "")
  if normalized_id = "" then result
  else
    let readable_name := orStr row.2.1 normalized_id
    let offset_seconds := (row.2.2.1.getD 0) / 1000
    let overrides := sanitize_stored_overrides allowed row.2.2.2
    alInsert result normalized_id
      ⟨normalized_id, readable_name, offset_seconds, overrides⟩

/-- The fold of `load_row` over the `devices` rows (main.py lines 486-500). -/
def _load_device_snapshots (allowed : List String)
    (rows : List (Option String × Option String × Option ℚ × StoredRaw)) :
    List (String × DeviceSnapshot (List (String × OVal))) :=
  rows.foldl (load_row allowed) []

/-- Helper: enqueueing always leaves exactly the new update pending. -/
theorem enqueue_state_eq {α : Type} (queue : Option α) (x : α) :
    DeviceListener.enqueue_state queue x = some x := by
  cases queue <;> rfl

/-- Helper: a burst of enqueues with no interleaved dequeue leaves exactly
the last update pending. -/
theorem foldl_enqueue_getLast {α : Type} :
    ∀ (updates : List α) (queue : Option α) (h : updates ≠ []),
      updates.foldl DeviceListener.enqueue_state queue = some (updates.getLast h)
  | [a], q, _ => by
    rw [List.foldl_cons, List.foldl_nil, enqueue_state_eq]
    rfl
  | a :: b :: rest, q, _ => by
    rw [List.foldl_cons, foldl_enqueue_getLast (b :: rest) _ (by simp)]
    exact congrArg some (List.getLast_cons (by simp)).symm

/-- Helper: `select_next_segment` scans for the first qualifying segment. -/
theorem select_next_segment_cons (completed : Finset String) (segment : Segment)
    (rest : List Segment) (position : ℚ) :
    DeviceListener.select_next_segment completed (segment :: rest) position =
      if DeviceListener.segmentQualifies completed position segment then some segment
      else DeviceListener.select_next_segment completed rest position := by
  rw [show DeviceListener.select_next_segment completed (segment :: rest) position =
      (if segment.start > segment.stop then
        DeviceListener.select_next_segment completed rest position
      else if segment.UUID ≠ [] ∧ ∀ uuid ∈ segment.UUID, uuid ∈ completed then
        DeviceListener.select_next_segment completed rest position
      else if (segment.start ≤ position ∧ position < segment.stop - DeviceListener.SEGMENT_EPSILON) ∨
          segment.start > position then
        some segment
      else DeviceListener.select_next_segment completed rest position) from rfl]
  by_cases hq : DeviceListener.segmentQualifies completed position segment
  · rw [if_pos hq, if_neg (not_lt.mpr hq.1), if_neg hq.2.1, if_pos hq.2.2]
  · rw [if_neg hq]
    by_cases h1 : segment.start > segment.stop
    · rw [if_pos h1]
    · rw [if_neg h1]
      by_cases h2 : segment.UUID ≠ [] ∧ ∀ uuid ∈ segment.UUID, uuid ∈ completed
      · rw [if_pos h2]
      · rw [if_neg h2, if_neg]
        intro h3
        exact hq ⟨not_lt.mp h1, h2, h3⟩

/-- C1: for every list of skip ranges sorted ascending by start, every
completed-UUIDs set, and every position, `_select_next_segment` returns the
first range in list order that (i) has `start ≤ end`, (ii) does not have a
non-empty uuid set entirely contained in the completed set (empty uuid sets
are never dropped by this test), and (iii) satisfies
`start ≤ p < end − 0.25` or `start > p`; it returns `none` iff no range
qualifies. -/
theorem C1_select_first_qualifying (completed : Finset String)
    (segments : List Segment) (position : ℚ)
    (hsorted : segments.Sorted (fun a b => a.start ≤ b.start)) :
    (∀ segment,
      DeviceListener.select_next_segment completed segments position = some segment →
      ∃ i : Fin segments.length, segments.get i = segment ∧
        DeviceListener.segmentQualifies completed position segment ∧
        ∀ j : Fin segments.length, (j : ℕ) < (i : ℕ) →
          ¬ DeviceListener.segmentQualifies completed position (segments.get j)) ∧
    (DeviceListener.select_next_segment completed segments position = none ↔
      ∀ segment ∈ segments,
        ¬ DeviceListener.segmentQualifies completed position segment) := by
  clear hsorted
  induction segments with
  | nil =>
    constructor
    · intro segment h
      simp [DeviceListener.select_next_segment] at h
    · simp [DeviceListener.select_next_segment]
  | cons seg rest ih =>
    rw [select_next_segment_cons]
    by_cases hq : DeviceListener.segmentQualifies completed position seg
    · rw [if_pos hq]
      constructor
      · intro s hs
        have hss : seg = s := Option.some.inj hs
        refine ⟨⟨0, Nat.succ_pos _⟩, hss, hss ▸ hq, ?_⟩
        intro j hj
        exact absurd hj (Nat.not_lt_zero _)
      · constructor
        · intro h
          exact Option.noConfusion h
        · intro h
          exact absurd hq (h seg (List.mem_cons_self _ _))
    · rw [if_neg hq]
      constructor
      · intro s hs
        obtain ⟨i, hget, hqual, hfirst⟩ := ih.1 s hs
        refine ⟨⟨i + 1, Nat.succ_lt_succ i.isLt⟩, ?_, hqual, ?_⟩
        · simpa using hget
        · intro j hj
          match j with
          | ⟨0, _⟩ =>
            simpa using hq
          | ⟨j' + 1, hj'⟩ =>
            have := hfirst ⟨j', Nat.lt_of_succ_lt_succ hj'⟩ (Nat.lt_of_succ_lt_succ hj)
            simpa using this
      · rw [ih.2]
        constructor
        · intro h s hs
          rcases List.mem_cons.mp hs with rfl | hs'
          · exact hq
          · exact h s hs'
        · intro h s hs
          exact h s (List.mem_cons_of_mem _ hs)

/-- Witness for C1: a concrete sorted list where a malformed range and a
fully-completed range are passed over and the third range is selected. -/
theorem C1_select_first_qualifying_witness :
    ([(⟨1, 0, [], []⟩ : Segment), ⟨2, 30, ["u1"], []⟩,
        ⟨5, 10, ["u2"], ["sponsor"]⟩].Sorted (fun a b => a.start ≤ b.start)) ∧
    ((∀ segment,
      DeviceListener.select_next_segment {"u1"}
          [(⟨1, 0, [], []⟩ : Segment), ⟨2, 30, ["u1"], []⟩,
            ⟨5, 10, ["u2"], ["sponsor"]⟩] 0 = some segment →
      ∃ i : Fin 3,
        [(⟨1, 0, [], []⟩ : Segment), ⟨2, 30, ["u1"], []⟩,
            ⟨5, 10, ["u2"], ["sponsor"]⟩].get i = segment ∧
        DeviceListener.segmentQualifies {"u1"} 0 segment ∧
        ∀ j : Fin 3, (j : ℕ) < (i : ℕ) →
          ¬ DeviceListener.segmentQualifies {"u1"} 0
            ([(⟨1, 0, [], []⟩ : Segment), ⟨2, 30, ["u1"], []⟩,
                ⟨5, 10, ["u2"], ["sponsor"]⟩].get j)) ∧
    (DeviceListener.select_next_segment {"u1"}
        [(⟨1, 0, [], []⟩ : Segment), ⟨2, 30, ["u1"], []⟩,
          ⟨5, 10, ["u2"], ["sponsor"]⟩] 0 = none ↔
      ∀ segment ∈ [(⟨1, 0, [], []⟩ : Segment), ⟨2, 30, ["u1"], []⟩,
          ⟨5, 10, ["u2"], ["sponsor"]⟩],
        ¬ DeviceListener.segmentQualifies {"u1"} 0 segment)) :=
  ⟨by decide, C1_select_first_qualifying _ _ _ (by decide)⟩

/-- C2: the plan's effective start is `p` when `start ≤ p < end` and `start`
otherwise; the scheduled wait is
`max(((plan_start − p − elapsed) / playback_speed) − offset, 0)`; and with
offset 0.3, a future range at start 5.0 seen at p = 0 with speed 1, the wait
is `4.7 − elapsed`. -/
theorem C2_plan_start_and_wait :
    (∀ (segment : Segment) (p : ℚ),
      (segment.start ≤ p ∧ p < segment.stop →
        DeviceListener.start_next_segment segment p = p) ∧
      (¬(segment.start ≤ p ∧ p < segment.stop) →
        DeviceListener.start_next_segment segment p = segment.start)) ∧
    (∀ plan_start p elapsed playback_speed offset : ℚ,
      DeviceListener.time_to_next plan_start p elapsed playback_speed offset =
        max ((plan_start - p - elapsed) / playback_speed - offset) 0) ∧
    (∀ elapsed : ℚ, 0 ≤ elapsed → elapsed ≤ 4.7 →
      DeviceListener.time_to_next 5 0 elapsed 1 0.3 = 4.7 - elapsed) := by
  have hmax : ∀ plan_start p elapsed playback_speed offset : ℚ,
      DeviceListener.time_to_next plan_start p elapsed playback_speed offset =
        max ((plan_start - p - elapsed) / playback_speed - offset) 0 := by
    intro plan_start p elapsed playback_speed offset
    unfold DeviceListener.time_to_next
    by_cases h : (plan_start - p - elapsed) / playback_speed - offset < 0
    · rw [if_pos h, max_eq_right h.le]
    · rw [if_neg h, max_eq_left (not_lt.mp h)]
  refine ⟨?_, hmax, ?_⟩
  · intro segment p
    constructor
    · intro h
      unfold DeviceListener.start_next_segment
      rw [if_pos h]
    · intro h
      unfold DeviceListener.start_next_segment
      rw [if_neg h]
  · intro elapsed h0 h47
    rw [hmax]
    have harith : ((5 : ℚ) - 0 - elapsed) / 1 - 0.3 = 4.7 - elapsed := by
      norm_num
      ring
    rw [harith, max_eq_left]
    linarith

/-- Helper: `_flush_watch_time` never touches the scheduled-skip slot. -/
theorem flush_watch_time_skipTask (st : ControllerState) (now : ℚ) :
    (DeviceListener.flush_watch_time st now).1.skipTask = st.skipTask := by
  unfold DeviceListener.flush_watch_time
  split
  · rfl
  · dsimp only
    split <;> rfl

/-- Helper: `_finalize_watch_session` never touches the scheduled-skip slot. -/
theorem finalize_watch_session_skipTask (st : ControllerState) (now : ℚ) :
    (DeviceListener.finalize_watch_session st now).1.skipTask = st.skipTask := by
  unfold DeviceListener.finalize_watch_session
  rw [flush_watch_time_skipTask]

/-- Helper: `_record_watch_time` never touches the scheduled-skip slot. -/
theorem record_watch_time_skipTask (st : ControllerState) (ps : PlayState)
    (time_start : ℚ) :
    (DeviceListener.record_watch_time st ps time_start).1.skipTask = st.skipTask := by
  unfold DeviceListener.record_watch_time
  dsimp only
  split
  · split
    · rfl
    · split
      · rw [flush_watch_time_skipTask]
      · rfl
  · rw [finalize_watch_session_skipTask]

/-- C3 counterexample: a playing update for the current video whose fetched
range list is empty leaves a previously scheduled skip pending, so the claim
"no scheduled skip remains pending whenever it is not the case that state ==
playing with non-empty ranges" is false at this input. -/
theorem C3_counterexample_playing_empty_ranges :
    ¬((⟨some "v1", some "c1", 1, 6⟩ : PlayState).state = 1 ∧
        DeviceListener.effective_segments ⟨some "v1", some "c1", 1, 6⟩ [] ≠ []) ∧
    (DeviceListener.process_playstatus
        ⟨some ⟨some "v1", 100, 110, ["u1"], ["sponsor"], 0, 0⟩,
          some "v1", some "c1", ∅, none, none, some 1, 0⟩
        ⟨some "v1", some "c1", 1, 6⟩ [] 6).1.skipTask ≠ none := by
  constructor
  · intro h
    exact h.2 rfl
  · intro h
    exact Option.noConfusion h

/-- C3 (amended): after `process_playstatus`, no scheduled skip remains
pending whenever the update's state is not `playing`; when the state is
`playing` but the fetched range list is empty, the pending scheduled skip
(if any) is left unchanged instead of being cancelled. -/
theorem C3_skip_cancelled_on_nonplaying :
    ∀ (st : ControllerState) (ps : PlayState) (fetched : List Segment)
      (time_start : ℚ),
      (ps.state ≠ 1 →
        (DeviceListener.process_playstatus st ps fetched time_start).1.skipTask = none) ∧
      (ps.state = 1 → DeviceListener.effective_segments ps fetched = [] →
        (DeviceListener.process_playstatus st ps fetched time_start).1.skipTask =
          st.skipTask) := by
  intro st ps fetched time_start
  constructor
  · intro h
    unfold DeviceListener.process_playstatus
    dsimp only
    rw [if_neg h]
    rfl
  · intro h hseg
    unfold DeviceListener.process_playstatus
    dsimp only
    rw [hseg, if_pos h, if_neg (by simp)]
    rw [record_watch_time_skipTask]
    split_ifs <;> simp [finalize_watch_session_skipTask]

/-- Witness for C3: the non-playing branch cancels a pending skip, and the
playing-with-empty-ranges branch leaves it in place. -/
theorem C3_skip_cancelled_on_nonplaying_witness :
    ((⟨some "v1", some "c1", 2, 6⟩ : PlayState).state ≠ 1 ∧
      (DeviceListener.process_playstatus
          ⟨some ⟨some "v1", 100, 110, ["u1"], ["sponsor"], 0, 0⟩,
            some "v1", some "c1", ∅, none, none, some 1, 0⟩
          ⟨some "v1", some "c1", 2, 6⟩ [] 6).1.skipTask = none) ∧
    ((⟨some "v1", some "c1", 1, 6⟩ : PlayState).state = 1 ∧
      DeviceListener.effective_segments ⟨some "v1", some "c1", 1, 6⟩ [] = [] ∧
      (DeviceListener.process_playstatus
          ⟨some ⟨some "v1", 100, 110, ["u1"], ["sponsor"], 0, 0⟩,
            some "v1", some "c1", ∅, none, none, some 1, 0⟩
          ⟨some "v1", some "c1", 1, 6⟩ [] 6).1.skipTask =
        (⟨some ⟨some "v1", 100, 110, ["u1"], ["sponsor"], 0, 0⟩,
            some "v1", some "c1", ∅, none, none, some 1, 0⟩ : ControllerState).skipTask) :=
  ⟨⟨by decide,
      (C3_skip_cancelled_on_nonplaying _ _ _ _).1 (by decide)⟩,
    ⟨rfl, rfl,
      (C3_skip_cancelled_on_nonplaying _ _ _ _).2 rfl rfl⟩⟩

/-- C4 (code bug): a playback update whose `cpn` differs from the current
one, carrying a new video whose fetched range list is empty, completes
processing with the previous cpn's pending scheduled skip still installed —
`process_playstatus` only cancels the task in its non-playing branch, so the
stale plan (here a seek for the previous video `v1`) survives the cpn
transition, violating the claimed invariant. -/
theorem C4_stale_skip_survives_cpn_change :
    truthyStr (⟨some "v2", some "c2", 1, 3⟩ : PlayState).cpn = true ∧
    (⟨some "v2", some "c2", 1, 3⟩ : PlayState).cpn ≠
      (⟨some ⟨some "v1", 100, 110, ["u1"], ["sponsor"], 0, 0⟩,
          some "v1", some "c1", ∅, none, none, some 1, 0⟩ : ControllerState).current_cpn ∧
    (DeviceListener.process_playstatus
        ⟨some ⟨some "v1", 100, 110, ["u1"], ["sponsor"], 0, 0⟩,
          some "v1", some "c1", ∅, none, none, some 1, 0⟩
        ⟨some "v2", some "c2", 1, 3⟩ [] 3).1.skipTask =
      some ⟨some "v1", 100, 110, ["u1"], ["sponsor"], 0, 0⟩ := by
  refine ⟨rfl, by decide, rfl⟩

/-- C5: whenever `_schedule_skip` computes a plan, a pending plan for the
same video whose plan start is within 0.05 s is left in place (the whole
state is unchanged and no new plan is installed); in every other case the
new plan replaces whatever was there, so the single `skip_task` slot
(embedded as the `Option` field `skipTask`, which by construction holds at
most one plan, mirroring the single `self.skip_task` attribute) ends up
holding exactly the new plan. -/
theorem C5_schedule_dedupe_or_replace :
    ∀ (st : ControllerState) (video_id : Option String) (segments : List Segment)
      (position time_start : ℚ) (next_segment : Segment),
      DeviceListener.select_next_segment st.completed_segment_uuids segments position =
        some next_segment →
      (∀ t, st.skipTask = some t → t.video = video_id →
        |t.planStart - DeviceListener.start_next_segment next_segment position| < 0.05 →
        DeviceListener.schedule_skip st video_id segments position time_start = st) ∧
      ((¬∃ t, st.skipTask = some t ∧ t.video = video_id ∧
          |t.planStart - DeviceListener.start_next_segment next_segment position| < 0.05) →
        (DeviceListener.schedule_skip st video_id segments position time_start).skipTask =
          some
            { video := video_id
              planStart := DeviceListener.start_next_segment next_segment position
              planEnd := next_segment.stop
              uuids := next_segment.UUID
              categories := next_segment.categories
              position := position
              timeStart := time_start }) := by
  intro st video_id segments position time_start next_segment hsel
  unfold DeviceListener.schedule_skip
  rw [hsel]
  dsimp only
  constructor
  · intro t ht hv habs
    rw [ht]
    dsimp only
    rw [if_pos]
    simp only [Bool.and_eq_true, decide_eq_true_eq]
    exact ⟨hv, habs⟩
  · intro hne
    rcases hst : st.skipTask with _ | t
    · rfl
    · have hfalse : ¬(decide (t.video = video_id) &&
          decide (|t.planStart -
            DeviceListener.start_next_segment next_segment position| < 0.05)) = true := by
        simp only [Bool.and_eq_true, decide_eq_true_eq, not_and]
        intro hv habs
        exact hne ⟨t, hst, hv, habs⟩
      dsimp only
      rw [if_neg hfalse]

/-- Witness for C5: the dedupe branch at an identical plan start, and the
install branch on an empty slot. -/
theorem C5_schedule_dedupe_or_replace_witness :
    (DeviceListener.select_next_segment
        (⟨some ⟨some "v", 5, 10, ["u"], [], 0, 0⟩, some "v", some "c", ∅, none, none,
            some 1, 0⟩ : ControllerState).completed_segment_uuids
        [⟨5, 10, ["u"], []⟩] 0 = some ⟨5, 10, ["u"], []⟩ ∧
      (⟨some ⟨some "v", 5, 10, ["u"], [], 0, 0⟩, some "v", some "c", ∅, none, none,
          some 1, 0⟩ : ControllerState).skipTask =
        some ⟨some "v", 5, 10, ["u"], [], 0, 0⟩ ∧
      (some "v" : Option String) = some "v" ∧
      |(5 : ℚ) - DeviceListener.start_next_segment ⟨5, 10, ["u"], []⟩ 0| < 0.05 ∧
      DeviceListener.schedule_skip
          ⟨some ⟨some "v", 5, 10, ["u"], [], 0, 0⟩, some "v", some "c", ∅, none, none,
            some 1, 0⟩
          (some "v") [⟨5, 10, ["u"], []⟩] 0 7 =
        ⟨some ⟨some "v", 5, 10, ["u"], [], 0, 0⟩, some "v", some "c", ∅, none, none,
          some 1, 0⟩) ∧
    (DeviceListener.select_next_segment
        (⟨none, none, none, ∅, none, none, none, 0⟩ : ControllerState).completed_segment_uuids
        [⟨5, 10, ["u"], []⟩] 0 = some ⟨5, 10, ["u"], []⟩ ∧
      (DeviceListener.schedule_skip ⟨none, none, none, ∅, none, none, none, 0⟩
          (some "v") [⟨5, 10, ["u"], []⟩] 0 7).skipTask =
        some ⟨some "v", 5, 10, ["u"], [], 0, 7⟩) := by
  have hsel1 : DeviceListener.select_next_segment (∅ : Finset String)
      [(⟨5, 10, ["u"], []⟩ : Segment)] 0 = some ⟨5, 10, ["u"], []⟩ := by
    rw [select_next_segment_cons, if_pos]
    refine ⟨by norm_num, ?_, Or.inr (by norm_num)⟩
    simp
  have habs : |(5 : ℚ) - DeviceListener.start_next_segment ⟨5, 10, ["u"], []⟩ 0| < 0.05 := by
    unfold DeviceListener.start_next_segment
    rw [if_neg (by norm_num)]
    norm_num
  refine ⟨⟨hsel1, rfl, rfl, habs, ?_⟩, hsel1, ?_⟩
  · exact (C5_schedule_dedupe_or_replace _ (some "v") _ 0 7 _ hsel1).1
      ⟨some "v", 5, 10, ["u"], [], 0, 0⟩ rfl rfl habs
  · have h2 := (C5_schedule_dedupe_or_replace
        ⟨none, none, none, ∅, none, none, none, 0⟩ (some "v") [⟨5, 10, ["u"], []⟩] 0 7
        ⟨5, 10, ["u"], []⟩ hsel1).2 (by rintro ⟨t, ht, -, -⟩; exact Option.noConfusion ht)
    rw [h2]
    have : DeviceListener.start_next_segment (⟨5, 10, ["u"], []⟩ : Segment) 0 = 5 := by
      unfold DeviceListener.start_next_segment
      rw [if_neg (by norm_num)]
    rw [this]

/-- C6 counterexample: in `skip`, the stats write is not in the same
concurrent batch as the seek and the mark-viewed report — the claim that the
skip statistics are counted without awaiting the return of those calls is
false at this concrete input (the stats write sits in a strictly later await
step). -/
theorem C6_counterexample_stats_await :
    ¬∃ batch ∈ DeviceListener.skipSteps 1 10 ["u1"] 5 ["sponsor"],
      SkipAction.seekTo 10 ∈ batch ∧
        SkipAction.recordSegmentSkip 1 5 ["sponsor"] ∈ batch := by
  have hsteps : DeviceListener.skipSteps 1 10 ["u1"] 5 ["sponsor"] =
      [[SkipAction.sleep 1],
        [SkipAction.seekTo 10, SkipAction.markViewed ["u1"]],
        [SkipAction.recordSegmentSkip 1 5 ["sponsor"]]] := by
    unfold DeviceListener.skipSteps
    rw [if_pos (by norm_num)]
    rfl
  rw [hsteps]
  rintro ⟨batch, hmem, hseek, hrec⟩
  simp only [List.mem_cons, List.not_mem_nil, or_false] at hmem
  rcases hmem with rfl | rfl | rfl
  · simp at hseek
  · simp at hrec
  · simp at hseek

/-- C6 (amended): when a scheduled skip fires, the seek and the mark-viewed
report are issued concurrently with each other (same gather batch), and the
skip statistics are counted in the immediately following await step — that
is, only after both calls have returned. -/
theorem C6_seek_mark_concurrent_stats_after :
    ∀ (time_to position : ℚ) (uuids : List String) (saved_duration : ℚ)
      (categories : List String),
      ∃ i : ℕ,
        (DeviceListener.skipSteps time_to position uuids saved_duration
            categories).get? i =
          some [SkipAction.seekTo position, SkipAction.markViewed uuids] ∧
        (DeviceListener.skipSteps time_to position uuids saved_duration
            categories).get? (i + 1) =
          some [SkipAction.recordSegmentSkip uuids.length saved_duration categories] := by
  intro time_to position uuids saved_duration categories
  unfold DeviceListener.skipSteps
  by_cases h : time_to > 0
  · exact ⟨1, by rw [if_pos h]; exact ⟨rfl, rfl⟩⟩
  · exact ⟨0, by rw [if_neg h]; exact ⟨rfl, rfl⟩⟩

/-- Helper: the exact effect of `_finalize_watch_session` on an open watch
session whose last flush point is not in the future: the recorded deltas sum
to the remaining delta, at most one record is issued, and the session is
closed. -/
theorem finalize_watch_session_spec (st : ControllerState) (now started : ℚ)
    (hopen : st.playback_started_at = some started)
    (hle : DeviceListener.watch_last_emit st.last_watch_emit_at started ≤ now) :
    (DeviceListener.finalize_watch_session st now).2.sum =
      now - DeviceListener.watch_last_emit st.last_watch_emit_at started ∧
    (DeviceListener.finalize_watch_session st now).2.length ≤ 1 ∧
    (DeviceListener.finalize_watch_session st now).1.playback_started_at = none ∧
    (DeviceListener.finalize_watch_session st now).1.last_watch_emit_at = none := by
  unfold DeviceListener.finalize_watch_session DeviceListener.flush_watch_time
  rw [hopen]
  dsimp only
  by_cases hd : now - DeviceListener.watch_last_emit st.last_watch_emit_at started ≤ 0
  · rw [if_pos hd]
    refine ⟨?_, by simp, rfl, rfl⟩
    simp only [List.sum_nil]
    linarith
  · rw [if_neg hd]
    exact ⟨by simp, by simp, rfl, rfl⟩

/-- C7: with an open watch session, a playing update at `time_start` flushes
iff `time_start − last_flush ≥ 5`; the flush records exactly
`time_start − last_flush` and advances the flush point to `time_start`.  A
non-playing update (and likewise `_finalize_watch_session`, which shutdown
calls directly) performs one final flush of exactly the remaining delta and
closes the session. -/
theorem C7_watch_time_accounting :
    ∀ (st : ControllerState) (ps : PlayState) (time_start started : ℚ),
      st.playback_started_at = some started →
      (ps.state = 1 →
        (time_start - DeviceListener.watch_last_emit st.last_watch_emit_at started ≥ 5 →
          (DeviceListener.record_watch_time st ps time_start).2 =
            [time_start - DeviceListener.watch_last_emit st.last_watch_emit_at started] ∧
          (DeviceListener.record_watch_time st ps time_start).1.last_watch_emit_at =
            some time_start) ∧
        (time_start - DeviceListener.watch_last_emit st.last_watch_emit_at started < 5 →
          (DeviceListener.record_watch_time st ps time_start).2 = [] ∧
          (DeviceListener.record_watch_time st ps time_start).1.last_watch_emit_at =
            st.last_watch_emit_at)) ∧
      (ps.state ≠ 1 →
        DeviceListener.watch_last_emit st.last_watch_emit_at started ≤ time_start →
        (DeviceListener.record_watch_time st ps time_start).2.sum =
            time_start - DeviceListener.watch_last_emit st.last_watch_emit_at started ∧
          (DeviceListener.record_watch_time st ps time_start).2.length ≤ 1 ∧
          (DeviceListener.record_watch_time st ps time_start).1.playback_started_at = none ∧
          (DeviceListener.record_watch_time st ps time_start).1.last_watch_emit_at = none) ∧
      (DeviceListener.watch_last_emit st.last_watch_emit_at started ≤ time_start →
        (DeviceListener.finalize_watch_session st time_start).2.sum =
            time_start - DeviceListener.watch_last_emit st.last_watch_emit_at started ∧
          (DeviceListener.finalize_watch_session st time_start).2.length ≤ 1 ∧
          (DeviceListener.finalize_watch_session st time_start).1.playback_started_at = none ∧
          (DeviceListener.finalize_watch_session st time_start).1.last_watch_emit_at = none) := by
  intro st ps time_start started hopen
  refine ⟨?_, ?_, finalize_watch_session_spec st time_start started hopen⟩
  · intro hplay
    unfold DeviceListener.record_watch_time
    rw [if_pos hplay, hopen]
    dsimp only
    constructor
    · intro h5
      rw [show DeviceListener.WATCH_FLUSH_INTERVAL = 5 from rfl, if_pos h5]
      unfold DeviceListener.flush_watch_time
      rw [hopen]
      dsimp only
      rw [if_neg (not_le.mpr (by linarith))]
      exact ⟨rfl, rfl⟩
    · intro h5
      rw [show DeviceListener.WATCH_FLUSH_INTERVAL = 5 from rfl, if_neg (not_le.mpr h5)]
      exact ⟨rfl, rfl⟩
  · intro hnp hle
    unfold DeviceListener.record_watch_time
    rw [if_neg hnp]
    dsimp only
    have hf := finalize_watch_session_spec st time_start started hopen hle
    exact ⟨hf.1, hf.2.1, hf.2.2.1, hf.2.2.2⟩

/-- Witness for C7: a session opened at 0 with last flush at 2 — a playing
update at 8 flushes exactly 6 seconds; a paused update at 3 flushes exactly
1 second and closes the session. -/
theorem C7_watch_time_accounting_witness :
    (⟨none, some "v", some "c", ∅, some 0, some 2, some 1, 0⟩ :
        ControllerState).playback_started_at = some 0 ∧
    (8 : ℚ) - DeviceListener.watch_last_emit (some 2) 0 ≥ 5 ∧
    (DeviceListener.record_watch_time
        ⟨none, some "v", some "c", ∅, some 0, some 2, some 1, 0⟩
        ⟨some "v", some "c", 1, 4⟩ 8).2 =
      [8 - DeviceListener.watch_last_emit (some 2) 0] ∧
    ((⟨some "v", some "c", 2, 4⟩ : PlayState).state ≠ 1 ∧
      DeviceListener.watch_last_emit (some 2) 0 ≤ 3 ∧
      (DeviceListener.record_watch_time
          ⟨none, some "v", some "c", ∅, some 0, some 2, some 1, 0⟩
          ⟨some "v", some "c", 2, 4⟩ 3).2.sum =
        3 - DeviceListener.watch_last_emit (some 2) 0 ∧
      (DeviceListener.record_watch_time
          ⟨none, some "v", some "c", ∅, some 0, some 2, some 1, 0⟩
          ⟨some "v", some "c", 2, 4⟩ 3).1.playback_started_at = none) := by
  have hle : DeviceListener.watch_last_emit (some 2) 0 = 2 := by
    unfold DeviceListener.watch_last_emit
    norm_num
  refine ⟨rfl, by rw [hle]; norm_num, ?_, by decide, by rw [hle]; norm_num, ?_, ?_⟩
  · exact (((C7_watch_time_accounting
      ⟨none, some "v", some "c", ∅, some 0, some 2, some 1, 0⟩
      ⟨some "v", some "c", 1, 4⟩ 8 0 rfl).1 rfl).1 (by rw [hle]; norm_num)).1
  · exact ((C7_watch_time_accounting
      ⟨none, some "v", some "c", ∅, some 0, some 2, some 1, 0⟩
      ⟨some "v", some "c", 2, 4⟩ 3 0 rfl).2.1 (by decide) (by rw [hle]; norm_num)).1
  · exact ((C7_watch_time_accounting
      ⟨none, some "v", some "c", ∅, some 0, some 2, some 1, 0⟩
      ⟨some "v", some "c", 2, 4⟩ 3 0 rfl).2.1 (by decide) (by rw [hle]; norm_num)).2.2.1

/-- C9: the capacity-1 state queue (embedded as an `Option`, so it can never
hold more than one pending update) coalesces: enqueueing over a pending
update discards the pending one and leaves exactly the new update; after a
burst of K ≥ 1 enqueues with no interleaved dequeue the queue holds exactly
one update — the last one received — so exactly one update (which is within
`[1, K]`) is subsequently processed, and it is the last one received. -/
theorem C9_coalescing_queue :
    ∀ {α : Type} (queue : Option α) (updates : List α) (h : updates ≠ []),
      updates.foldl DeviceListener.enqueue_state queue = some (updates.getLast h) ∧
      (updates.foldl DeviceListener.enqueue_state queue).toList.length = 1 ∧
      1 ≤ updates.length ∧
      (∀ pending x : α, DeviceListener.enqueue_state (some pending) x = some x) := by
  intro α queue updates h
  refine ⟨foldl_enqueue_getLast updates queue h, ?_, ?_, fun pending x => rfl⟩
  · rw [foldl_enqueue_getLast updates queue h]
    rfl
  · exact Nat.one_le_iff_ne_zero.mpr (fun hlen => h (List.eq_nil_of_length_eq_zero hlen))

/-- Witness for C9: a burst of three updates leaves exactly the third one
pending. -/
theorem C9_coalescing_queue_witness :
    (["a", "b", "c"] ≠ ([] : List String)) ∧
    (["a", "b", "c"].foldl DeviceListener.enqueue_state none =
        some (["a", "b", "c"].getLast (by decide)) ∧
      (["a", "b", "c"].foldl DeviceListener.enqueue_state none).toList.length = 1 ∧
      1 ≤ ["a", "b", "c"].length ∧
      (∀ pending x : String, DeviceListener.enqueue_state (some pending) x = some x)) :=
  ⟨by decide, C9_coalescing_queue none ["a", "b", "c"] (by decide)⟩

/-- Witness for C2: inside-range effective start at p = 6, and the wait for
the S6 scenario with elapsed = 1. -/
theorem C2_plan_start_and_wait_witness :
    ((3 : ℚ) ≤ 6 ∧ (6 : ℚ) < 10) ∧
    ¬((12 : ℚ) ≤ 6 ∧ (6 : ℚ) < 20) ∧
    (0 : ℚ) ≤ 1 ∧ (1 : ℚ) ≤ 4.7 ∧
    DeviceListener.start_next_segment ⟨3, 10, ["u1"], []⟩ 6 = 6 ∧
    DeviceListener.start_next_segment ⟨12, 20, ["u1"], []⟩ 6 = 12 ∧
    DeviceListener.time_to_next 5 0 1 1 0.3 = 4.7 - 1 :=
  ⟨⟨by norm_num, by norm_num⟩, by norm_num, by norm_num, by norm_num,
    (C2_plan_start_and_wait.1 ⟨3, 10, ["u1"], []⟩ 6).1 ⟨by norm_num, by norm_num⟩,
    (C2_plan_start_and_wait.1 ⟨12, 20, ["u1"], []⟩ 6).2 (by norm_num),
    C2_plan_start_and_wait.2.2 1 (by norm_num) (by norm_num)⟩

/-! ### Overrides sanitization lemmas -/

/-- Helper: `isNull` is false on non-`null` values. -/
theorem JVal.isNull_eq_false : ∀ {v : JVal}, v ≠ JVal.null → v.isNull = false := by
  intro v h
  cases v
  · exact absurd rfl h
  all_goals rfl

/-- Helper: an offending entry (non-null, non-blank, outside the allowed
set) anywhere in the list makes the skip-categories entry loop raise. -/
theorem skip_categories_fold_error (allowed : List String) :
    ∀ (xs : List JVal) (acc : List String),
      (∃ r ∈ xs, r ≠ JVal.null ∧ pyStrip (pyStr r) ≠ "" ∧ pyStrip (pyStr r) ∉ allowed) →
      ∃ e, skip_categories_fold allowed acc xs = .error e
  | [], _, h => absurd h (by simp)
  | raw :: rest, acc, h => by
    have htail : (∃ r ∈ rest, r ≠ JVal.null ∧ pyStrip (pyStr r) ≠ "" ∧
        pyStrip (pyStr r) ∉ allowed) ∨
        (raw ≠ JVal.null ∧ pyStrip (pyStr raw) ≠ "" ∧ pyStrip (pyStr raw) ∉ allowed) := by
      rcases h with ⟨r, hr, hspec⟩
      rcases List.mem_cons.mp hr with rfl | hr'
      · exact Or.inr hspec
      · exact Or.inl ⟨r, hr', hspec⟩
    unfold skip_categories_fold
    by_cases hnull : raw.isNull
    · rw [if_pos hnull]
      apply skip_categories_fold_error allowed rest acc
      rcases htail with hrest | ⟨hnn, -, -⟩
      · exact hrest
      · exfalso
        cases raw with
        | null => exact hnn rfl
        | bool b => exact Bool.noConfusion hnull
        | str s => exact Bool.noConfusion hnull
        | num n => exact Bool.noConfusion hnull
        | arr xs => exact Bool.noConfusion hnull
        | obj kvs => exact Bool.noConfusion hnull
    · rw [if_neg hnull]
      dsimp only
      by_cases hb : pyStrip (pyStr raw) = ""
      · rw [if_pos hb]
        apply skip_categories_fold_error allowed rest acc
        rcases htail with hrest | ⟨-, hbr, -⟩
        · exact hrest
        · exact absurd hb hbr
      · rw [if_neg hb]
        by_cases hna : pyStrip (pyStr raw) ∉ allowed
        · rw [if_pos hna]
          exact ⟨_, rfl⟩
        · rw [if_neg hna]
          by_cases hacc : pyStrip (pyStr raw) ∈ acc
          · rw [if_pos hacc]
            apply skip_categories_fold_error allowed rest acc
            rcases htail with hrest | ⟨-, -, hnar⟩
            · exact hrest
            · exact absurd hnar hna
          · rw [if_neg hacc]
            apply skip_categories_fold_error allowed rest (acc ++ [pyStrip (pyStr raw)])
            rcases htail with hrest | ⟨-, -, hnar⟩
            · exact hrest
            · exact absurd hnar hna

/-- Helper: a non-list (and non-absent) skip-categories payload raises. -/
theorem normalize_skip_categories_nonlist (allowed : List String) (v : JVal)
    (hna : ∀ xs, v ≠ JVal.arr xs) :
    ∃ e, _normalize_skip_categories allowed (some v) = .error e := by
  cases v with
  | arr xs => exact absurd rfl (hna xs)
  | null => exact ⟨_, rfl⟩
  | bool b => exact ⟨_, rfl⟩
  | str s => exact ⟨_, rfl⟩
  | num n => exact ⟨_, rfl⟩
  | obj kvs => exact ⟨_, rfl⟩

/-- Helper: a non-list (and non-absent) channel-whitelist payload raises. -/
theorem normalize_channel_whitelist_nonlist (v : JVal)
    (hna : ∀ xs, v ≠ JVal.arr xs) :
    ∃ e, _normalize_channel_whitelist (some v) = .error e := by
  cases v with
  | arr xs => exact absurd rfl (hna xs)
  | null => exact ⟨_, rfl⟩
  | bool b => exact ⟨_, rfl⟩
  | str s => exact ⟨_, rfl⟩
  | num n => exact ⟨_, rfl⟩
  | obj kvs => exact ⟨_, rfl⟩

/-- Helper: a raising skip-categories normalization makes the whole
`normalize_overrides` raise. -/
theorem normalize_overrides_error_of_sc (allowed : List String)
    (kvs : List (String × JVal)) (e : String)
    (h : _normalize_skip_categories allowed (asPyOpt (jget kvs "skip_categories")) =
      .error e) :
    normalize_overrides allowed (.obj kvs) = .error e := by
  unfold normalize_overrides
  dsimp only
  rw [h]

/-- Helper: a raising channel-whitelist normalization makes the whole
`normalize_overrides` raise. -/
theorem normalize_overrides_error_of_cw (allowed : List String)
    (kvs : List (String × JVal)) (e : String)
    (h : _normalize_channel_whitelist (asPyOpt (jget kvs "channel_whitelist")) =
      .error e) :
    ∃ e', normalize_overrides allowed (.obj kvs) = .error e' := by
  unfold normalize_overrides
  dsimp only
  rcases hsc : _normalize_skip_categories allowed (asPyOpt (jget kvs "skip_categories"))
      with e2 | sc
  · exact ⟨e2, rfl⟩
  · dsimp only
    rw [h]
    exact ⟨e, rfl⟩

/-- Helper: a non-dict payload normalizes to the empty dict. -/
theorem normalize_overrides_nonobj (allowed : List String) (v : JVal)
    (h : ∀ kvs, v ≠ JVal.obj kvs) :
    normalize_overrides allowed v = .ok [] := by
  cases v with
  | obj kvs => exact absurd rfl (h kvs)
  | null => rfl
  | bool b => rfl
  | str s => rfl
  | num n => rfl
  | arr xs => rfl

/-- Helper: keys of a successful `normalize_overrides` result are among the
three known override keys. -/
theorem normalize_overrides_keys (allowed : List String) (v : JVal)
    (d : List (String × OVal)) (h : normalize_overrides allowed v = .ok d) :
    ∀ k ∈ d.map Prod.fst, k ∈ ["automation", "skip_categories", "channel_whitelist"] := by
  cases v with
  | obj kvs =>
    unfold normalize_overrides at h
    dsimp only at h
    rcases hsc : _normalize_skip_categories allowed (asPyOpt (jget kvs "skip_categories"))
        with e | sc
    · rw [hsc] at h
      exact absurd h (by simp)
    · rw [hsc] at h
      dsimp only at h
      rcases hcw : _normalize_channel_whitelist (asPyOpt (jget kvs "channel_whitelist"))
          with e | cw
      · rw [hcw] at h
        exact absurd h (by simp)
      · rw [hcw] at h
        dsimp only at h
        replace h := Except.ok.inj h
        subst h
        intro k hk
        rcases sc with _ | l <;> rcases cw with _ | l' <;>
          by_cases hauto :
            _normalize_automation (asPyOpt (jget kvs "automation")) = [] <;>
          simp [hauto] at hk ⊢ <;> tauto
  | null =>
    replace h := Except.ok.inj h
    subst h
    intro k hk
    simp at hk
  | bool b =>
    replace h := Except.ok.inj h
    subst h
    intro k hk
    simp at hk
  | str s =>
    replace h := Except.ok.inj h
    subst h
    intro k hk
    simp at hk
  | num n =>
    replace h := Except.ok.inj h
    subst h
    intro k hk
    simp at hk
  | arr xs =>
    replace h := Except.ok.inj h
    subst h
    intro k hk
    simp at hk

/-- Helper: a raising `normalize_overrides` collapses the sanitized dict. -/
theorem sanitize_of_normalize_error (allowed : List String) (v : JVal) (e : String)
    (h : normalize_overrides allowed v = .error e) :
    sanitize_stored_overrides allowed (.value v) = [] := by
  by_cases ht : pyTruthy v <;> simp [sanitize_stored_overrides, ht, h]

/-- C10: `sanitize_stored_overrides` is total over arbitrary stored input —
every result is a dict whose keys are among
automation / skip_categories / channel_whitelist; `None`, falsy strings,
undecodable JSON and non-dict values yield the empty dict; and a present
`skip_categories` or `channel_whitelist` that is not a list, or any
skip-category entry outside the allowed set, collapses the whole overrides
object to the empty dict. -/
theorem C10_sanitize_total_and_collapsing :
    ∀ allowed : List String,
      (∀ raw : StoredRaw, ∀ k ∈ (sanitize_stored_overrides allowed raw).map Prod.fst,
        k ∈ ["automation", "skip_categories", "channel_whitelist"]) ∧
      sanitize_stored_overrides allowed (.value .null) = [] ∧
      (∀ parsed, sanitize_stored_overrides allowed (.jsonText false parsed) = []) ∧
      sanitize_stored_overrides allowed (.jsonText true none) = [] ∧
      (∀ v : JVal, (∀ kvs, v ≠ .obj kvs) →
        sanitize_stored_overrides allowed (.value v) = []) ∧
      (∀ kvs v, asPyOpt (jget kvs "skip_categories") = some v →
        (∀ xs, v ≠ JVal.arr xs) →
        sanitize_stored_overrides allowed (.value (.obj kvs)) = []) ∧
      (∀ kvs v, asPyOpt (jget kvs "channel_whitelist") = some v →
        (∀ xs, v ≠ JVal.arr xs) →
        sanitize_stored_overrides allowed (.value (.obj kvs)) = []) ∧
      (∀ kvs xs, asPyOpt (jget kvs "skip_categories") = some (.arr xs) →
        (∃ r ∈ xs, r ≠ JVal.null ∧ pyStrip (pyStr r) ≠ "" ∧ pyStrip (pyStr r) ∉ allowed) →
        sanitize_stored_overrides allowed (.value (.obj kvs)) = []) := by
  intro allowed
  refine ⟨?_, rfl, fun parsed => rfl, rfl, ?_, ?_, ?_, ?_⟩
  · intro raw
    cases raw with
    | jsonText truthy parsed =>
      cases truthy with
      | false =>
        intro k hk
        simp [sanitize_stored_overrides] at hk
      | true =>
        cases parsed with
        | none =>
          intro k hk
          simp [sanitize_stored_overrides] at hk
        | some v =>
          rcases hv : normalize_overrides allowed v with e | d
          · intro k hk
            simp [sanitize_stored_overrides, hv] at hk
          · intro k hk
            simp only [sanitize_stored_overrides, Bool.not_true, Bool.false_eq_true,
              if_false, hv] at hk
            exact normalize_overrides_keys allowed v d hv k hk
    | value v =>
      by_cases ht : pyTruthy v
      · rcases hv : normalize_overrides allowed v with e | d
        · intro k hk
          simp [sanitize_stored_overrides, ht, hv] at hk
        · intro k hk
          simp only [sanitize_stored_overrides, ht, Bool.not_true, Bool.false_eq_true,
            if_false, hv] at hk
          exact normalize_overrides_keys allowed v d hv k hk
      · intro k hk
        simp [sanitize_stored_overrides, ht] at hk
  · intro v hnonobj
    by_cases ht : pyTruthy v <;>
      simp [sanitize_stored_overrides, ht, normalize_overrides_nonobj allowed v hnonobj]
  · intro kvs v hget hna
    obtain ⟨e, he⟩ := normalize_skip_categories_nonlist allowed v hna
    exact sanitize_of_normalize_error allowed _ e
      (normalize_overrides_error_of_sc allowed kvs e (by rw [hget, he]))
  · intro kvs v hget hna
    obtain ⟨e, he⟩ := normalize_channel_whitelist_nonlist v hna
    obtain ⟨e', he'⟩ := normalize_overrides_error_of_cw allowed kvs e (by rw [hget, he])
    exact sanitize_of_normalize_error allowed _ e' he'
  · intro kvs xs hget hbad
    obtain ⟨e, he⟩ := skip_categories_fold_error allowed xs [] hbad
    have hsc : _normalize_skip_categories allowed
        (asPyOpt (jget kvs "skip_categories")) = .error e := by
      rw [hget]
      unfold _normalize_skip_categories
      dsimp only
      rw [he]
    exact sanitize_of_normalize_error allowed _ e
      (normalize_overrides_error_of_sc allowed kvs e hsc)

/-- Witness for C10: with allowed set `["sponsor"]` — a non-dict value, a
numeric `skip_categories`, and a list containing the disallowed category
`"selfpromo"` all collapse to the empty dict. -/
theorem C10_sanitize_total_and_collapsing_witness :
    ((∀ kvs, JVal.num 3 ≠ JVal.obj kvs) ∧
      sanitize_stored_overrides ["sponsor"] (.value (.num 3)) = []) ∧
    (asPyOpt (jget [("skip_categories", JVal.num 3)] "skip_categories") =
        some (.num 3) ∧
      (∀ xs, JVal.num 3 ≠ JVal.arr xs) ∧
      sanitize_stored_overrides ["sponsor"]
        (.value (.obj [("skip_categories", JVal.num 3)])) = []) ∧
    (asPyOpt (jget [("skip_categories", JVal.arr [JVal.str "selfpromo"])]
          "skip_categories") = some (.arr [JVal.str "selfpromo"]) ∧
      (∃ r ∈ [JVal.str "selfpromo"], r ≠ JVal.null ∧ pyStrip (pyStr r) ≠ "" ∧
        pyStrip (pyStr r) ∉ ["sponsor"]) ∧
      sanitize_stored_overrides ["sponsor"]
        (.value (.obj [("skip_categories", JVal.arr [JVal.str "selfpromo"])])) = []) := by
  obtain ⟨hkeys, hnull, hfalsy, hbadjson, hnonobj, hscnl, hcwnl, hbad⟩ :=
    C10_sanitize_total_and_collapsing ["sponsor"]
  have hno : ∀ kvs, JVal.num 3 ≠ JVal.obj kvs := fun kvs h => JVal.noConfusion h
  have hna : ∀ xs, JVal.num 3 ≠ JVal.arr xs := fun xs h => JVal.noConfusion h
  have hoff : ∃ r ∈ [JVal.str "selfpromo"], r ≠ JVal.null ∧ pyStrip (pyStr r) ≠ "" ∧
      pyStrip (pyStr r) ∉ ["sponsor"] := by
    refine ⟨JVal.str "selfpromo", List.mem_singleton.mpr rfl,
      fun h => JVal.noConfusion h, ?_, ?_⟩
    · intro h
      exact absurd h (by decide)
    · decide
  exact ⟨⟨hno, hnonobj (.num 3) hno⟩,
    ⟨rfl, hna, hscnl [("skip_categories", JVal.num 3)] (.num 3) rfl hna⟩,
    ⟨rfl, hoff,
      hbad [("skip_categories", JVal.arr [JVal.str "selfpromo"])]
        [JVal.str "selfpromo"] rfl hoff⟩⟩

/-! ### Association-list lemmas for the reconciler maps -/

/-- Helper: lookup in the empty dict. -/
theorem alLookup_nil {β : Type} (k : String) :
    alLookup ([] : List (String × β)) k = none := rfl

/-- Helper: lookup steps over one entry. -/
theorem alLookup_cons {β : Type} (kv : String × β) (rest : List (String × β))
    (k : String) :
    alLookup (kv :: rest) k = if kv.1 = k then some kv.2 else alLookup rest k := by
  unfold alLookup
  by_cases h : kv.1 = k
  · rw [List.find?_cons_of_pos _ (by simpa using h), if_pos h]
    rfl
  · rw [List.find?_cons_of_neg _ (by simpa using h), if_neg h]

/-- Helper: lookup after dict assignment. -/
theorem alLookup_alInsert {β : Type} :
    ∀ (al : List (String × β)) (k : String) (v : β) (k' : String),
      alLookup (alInsert al k v) k' = if k = k' then some v else alLookup al k'
  | [], k, v, k' => by
    rw [show alInsert ([] : List (String × β)) k v = [(k, v)] from rfl,
      alLookup_cons, alLookup_nil]
  | kv :: rest, k, v, k' => by
    unfold alInsert
    by_cases hkv : kv.1 = k
    · rw [if_pos hkv, alLookup_cons, alLookup_cons, hkv]
      by_cases hk : k = k' <;> simp [hk]
    · rw [if_neg hkv, alLookup_cons]
      by_cases hh : kv.1 = k'
      · rw [if_pos hh, alLookup_cons, if_pos hh, if_neg]
        intro hkk
        exact hkv (hh.trans hkk.symm)
      · rw [if_neg hh, alLookup_alInsert rest k v k', alLookup_cons, if_neg hh]

/-- Helper: lookup misses keys that are not in the dict. -/
theorem alLookup_eq_none_of_not_mem {β : Type} :
    ∀ (al : List (String × β)) (k : String), k ∉ al.map Prod.fst →
      alLookup al k = none
  | [], _, _ => rfl
  | kv :: rest, k, h => by
    rw [alLookup_cons, if_neg (fun he => h (by simp [he])),
      alLookup_eq_none_of_not_mem rest k (fun hm => h (by simp [hm]))]

/-- Helper: the key set after dict assignment. -/
theorem alInsert_keys {β : Type} :
    ∀ (al : List (String × β)) (k : String) (v : β),
      (alInsert al k v).map Prod.fst =
        if k ∈ al.map Prod.fst then al.map Prod.fst else al.map Prod.fst ++ [k]
  | [], k, v => by simp [alInsert]
  | kv :: rest, k, v => by
    unfold alInsert
    by_cases hkv : kv.1 = k
    · rw [if_pos hkv]
      simp [hkv]
    · rw [if_neg hkv]
      simp only [List.map_cons]
      rw [alInsert_keys rest k v]
      by_cases hm : k ∈ rest.map Prod.fst
      · rw [if_pos hm, if_pos (by simp [hm])]
      · rw [if_neg hm, if_neg (by
          simp only [List.mem_cons]
          rintro (he | hm')
          · exact hkv he.symm
          · exact hm hm')]
        simp

/-- Helper: dict assignment preserves key-set nodup. -/
theorem alInsert_keys_nodup {β : Type} (al : List (String × β)) (k : String) (v : β)
    (h : (al.map Prod.fst).Nodup) : ((alInsert al k v).map Prod.fst).Nodup := by
  rw [alInsert_keys]
  by_cases hm : k ∈ al.map Prod.fst
  · rw [if_pos hm]
    exact h
  · rw [if_neg hm]
    simp [List.nodup_append, h, hm]

/-- Helper: the effect of one desired entry on the listeners map during a
reconciler tick, at the entry's own key. -/
theorem alLookup_monitor_step_self {O : Type} [DecidableEq O]
    (acc : List (String × ListenerHandle O)) (k : String) (snap : DeviceSnapshot O) :
    alLookup (monitor_step acc (k, snap)) k =
      some
        (match alLookup acc k with
          | none => ⟨snap⟩
          | some handle =>
            if _snapshot_changed handle.snapshot snap then ⟨snap⟩ else handle) := by
  unfold monitor_step
  rcases hacc : alLookup acc k with _ | handle
  · dsimp only
    rw [alLookup_alInsert, if_pos rfl]
  · dsimp only
    by_cases hch : _snapshot_changed handle.snapshot snap
    · rw [if_pos hch, alLookup_alInsert, if_pos rfl, if_pos hch]
    · rw [if_neg hch, hacc, if_neg hch]

/-- Helper: one desired entry leaves every other key of the listeners map
alone. -/
theorem alLookup_monitor_step_ne {O : Type} [DecidableEq O]
    (acc : List (String × ListenerHandle O)) (k : String) (snap : DeviceSnapshot O)
    (sid : String) (hne : k ≠ sid) :
    alLookup (monitor_step acc (k, snap)) sid = alLookup acc sid := by
  unfold monitor_step
  rcases alLookup acc k with _ | handle
  · dsimp only
    rw [alLookup_alInsert, if_neg hne]
  · dsimp only
    by_cases hch : _snapshot_changed handle.snapshot snap
    · rw [if_pos hch, alLookup_alInsert, if_neg hne]
    · rw [if_neg hch]

/-- Helper: the first reconciler loop (fold of `monitor_step` over the
desired snapshots), characterized pointwise. -/
theorem alLookup_foldl_monitor_step {O : Type} [DecidableEq O] :
    ∀ (desired : List (String × DeviceSnapshot O))
      (acc : List (String × ListenerHandle O)) (sid : String),
      (desired.map Prod.fst).Nodup →
      alLookup (desired.foldl monitor_step acc) sid =
        match alLookup desired sid with
        | some snap =>
          some
            (match alLookup acc sid with
              | none => ⟨snap⟩
              | some handle =>
                if _snapshot_changed handle.snapshot snap then ⟨snap⟩ else handle)
        | none => alLookup acc sid
  | [], acc, sid, _ => rfl
  | (k0, s0) :: rest, acc, sid, hnodup => by
    have hnd : (k0 :: rest.map Prod.fst).Nodup := by simpa using hnodup
    have hk0 : k0 ∉ rest.map Prod.fst := (List.nodup_cons.mp hnd).1
    have hrest : (rest.map Prod.fst).Nodup := (List.nodup_cons.mp hnd).2
    rw [List.foldl_cons]
    by_cases hsid : k0 = sid
    · subst hsid
      rw [alLookup_foldl_monitor_step rest _ k0 hrest,
        alLookup_eq_none_of_not_mem rest k0 hk0, alLookup_cons, if_pos rfl]
      exact alLookup_monitor_step_self acc k0 s0
    · rw [alLookup_foldl_monitor_step rest _ sid hrest, alLookup_cons, if_neg hsid,
        alLookup_monitor_step_ne acc k0 s0 sid hsid]

/-- Helper: lookup through a key-predicate filter. -/
theorem alLookup_filter_key {β : Type} (P : String → Bool) :
    ∀ (al : List (String × β)) (k : String),
      alLookup (al.filter (fun kv => P kv.1)) k =
        if P k then alLookup al k else none
  | [], k => by
    by_cases hP : P k <;> simp [hP, alLookup_nil, List.filter_nil]
  | kv :: rest, k => by
    by_cases hkv : P kv.1
    · rw [List.filter_cons_of_pos (by simpa using hkv), alLookup_cons, alLookup_cons]
      by_cases hk : kv.1 = k
      · subst hk
        rw [if_pos rfl, if_pos rfl, if_pos hkv]
      · rw [if_neg hk, if_neg hk, alLookup_filter_key P rest k]
    · rw [List.filter_cons_of_neg (by simpa using hkv), alLookup_filter_key P rest k]
      by_cases hk : kv.1 = k
      · subst hk
        rw [if_neg hkv, if_neg hkv]
      · rw [alLookup_cons, if_neg hk]

/-- Helper: a row fold preserves "all keys non-blank" and key nodup. -/
theorem load_row_foldl_invariant (allowed : List String) :
    ∀ (rows : List (Option String × Option String × Option ℚ × StoredRaw))
      (acc : List (String × DeviceSnapshot (List (String × OVal)))),
      (∀ sid ∈ acc.map Prod.fst, sid ≠ "") → (acc.map Prod.fst).Nodup →
      (∀ sid ∈ (rows.foldl (load_row allowed) acc).map Prod.fst, sid ≠ "") ∧
        ((rows.foldl (load_row allowed) acc).map Prod.fst).Nodup
  | [], acc, hne, hnd => ⟨hne, hnd⟩
  | row :: rest, acc, hne, hnd => by
    rw [List.foldl_cons]
    refine load_row_foldl_invariant allowed rest _ ?_ ?_
    · intro sid hsid
      unfold load_row at hsid
      by_cases hid : pyStrip (orStr row.1 "") = ""
      · rw [if_pos hid] at hsid
        exact hne sid hsid
      · rw [if_neg hid] at hsid
        rw [alInsert_keys] at hsid
        by_cases hm : pyStrip (orStr row.1 "") ∈ acc.map Prod.fst
        · rw [if_pos hm] at hsid
          exact hne sid hsid
        · rw [if_neg hm] at hsid
          rcases List.mem_append.mp hsid with hsid' | hsid'
          · exact hne sid hsid'
          · intro hblank
            exact hid ((List.mem_singleton.mp hsid') ▸ hblank ▸ rfl)
    · unfold load_row
      by_cases hid : pyStrip (orStr row.1 "") = ""
      · rw [if_pos hid]
        exact hnd
      · rw [if_neg hid]
        exact alInsert_keys_nodup _ _ _ hnd

/-- C8: in a reconciler tick where every start and stop succeeds, the live
keys afterwards are exactly the desired non-blank screen_ids read from the
store; a live listener for a still-desired screen_id is replaced by a fresh
one built from the stored snapshot iff `_snapshot_changed` holds — i.e. iff
name or overrides differ or the offsets differ by more than 1 ms (= 1e-3
seconds) — and kept untouched otherwise; listeners whose screen_id is no
longer desired are removed; and the store read only ever produces non-blank,
duplicate-free screen_ids. -/
theorem C8_reconciler_convergence :
    ∀ (O : Type) [DecidableEq O] (desired : List (String × DeviceSnapshot O))
      (listeners : List (String × ListenerHandle O)),
      (desired.map Prod.fst).Nodup →
      ((∀ sid, (alLookup (monitor_tick desired listeners) sid).isSome ↔
          (alLookup desired sid).isSome) ∧
        (∀ sid snap handle,
          alLookup desired sid = some snap →
          alLookup listeners sid = some handle →
          alLookup (monitor_tick desired listeners) sid =
            some (if _snapshot_changed handle.snapshot snap then ⟨snap⟩ else handle)) ∧
        (∀ sid snap,
          alLookup desired sid = some snap →
          alLookup listeners sid = none →
          alLookup (monitor_tick desired listeners) sid = some ⟨snap⟩) ∧
        (∀ sid,
          alLookup desired sid = none →
          alLookup (monitor_tick desired listeners) sid = none) ∧
        (∀ existing fresh : DeviceSnapshot O,
          _snapshot_changed existing fresh = true ↔
            (existing.name ≠ fresh.name ∨ existing.overrides ≠ fresh.overrides ∨
              |existing.offset - fresh.offset| > 1e-3)) ∧
        (∀ (allowed : List String)
            (rows : List (Option String × Option String × Option ℚ × StoredRaw)),
          (∀ sid ∈ (_load_device_snapshots allowed rows).map Prod.fst, sid ≠ "") ∧
            ((_load_device_snapshots allowed rows).map Prod.fst).Nodup)) := by
  intro O _ desired listeners hnodup
  have htick : ∀ sid, alLookup (monitor_tick desired listeners) sid =
      if (alLookup desired sid).isSome then
        alLookup (desired.foldl monitor_step listeners) sid
      else none := by
    intro sid
    unfold monitor_tick
    rw [alLookup_filter_key (fun k => (alLookup desired k).isSome)]
  refine ⟨?_, ?_, ?_, ?_, ?_, ?_⟩
  · intro sid
    rw [htick sid, alLookup_foldl_monitor_step desired listeners sid hnodup]
    rcases hd : alLookup desired sid with _ | snap
    · simp
    · simp
  · intro sid snap handle hd hl
    rw [htick sid, alLookup_foldl_monitor_step desired listeners sid hnodup, hd, hl]
    rfl
  · intro sid snap hd hl
    rw [htick sid, alLookup_foldl_monitor_step desired listeners sid hnodup, hd, hl]
    rfl
  · intro sid hd
    rw [htick sid, hd]
    rfl
  · intro existing fresh
    unfold _snapshot_changed
    by_cases h1 : existing.name ≠ fresh.name
    · simp [h1]
    · by_cases h2 : existing.overrides ≠ fresh.overrides
      · simp [h1, h2]
      · simp [h1, h2]
  · intro allowed rows
    exact load_row_foldl_invariant allowed rows [] (by simp) (by simp)

/-- Witness for C8: a two-device desired set against a live map holding one
unchanged device (kept), one device whose offset moved by 2 ms (restarted
with the stored snapshot), and one retired device (removed). -/
theorem C8_reconciler_convergence_witness :
    (([("d1", (⟨"d1", "tv", 0, 0⟩ : DeviceSnapshot ℕ)),
        ("d2", ⟨"d2", "bedroom", 0.002, 0⟩)].map Prod.fst).Nodup) ∧
    alLookup (monitor_tick
        [("d1", (⟨"d1", "tv", 0, 0⟩ : DeviceSnapshot ℕ)),
          ("d2", ⟨"d2", "bedroom", 0.002, 0⟩)]
        [("d1", (⟨⟨"d1", "tv", 0, 0⟩⟩ : ListenerHandle ℕ)),
          ("d2", ⟨⟨"d2", "bedroom", 0, 0⟩⟩), ("d3", ⟨⟨"d3", "attic", 0, 0⟩⟩)]) "d1" =
      some ⟨⟨"d1", "tv", 0, 0⟩⟩ ∧
    alLookup (monitor_tick
        [("d1", (⟨"d1", "tv", 0, 0⟩ : DeviceSnapshot ℕ)),
          ("d2", ⟨"d2", "bedroom", 0.002, 0⟩)]
        [("d1", (⟨⟨"d1", "tv", 0, 0⟩⟩ : ListenerHandle ℕ)),
          ("d2", ⟨⟨"d2", "bedroom", 0, 0⟩⟩), ("d3", ⟨⟨"d3", "attic", 0, 0⟩⟩)]) "d2" =
      some ⟨⟨"d2", "bedroom", 0.002, 0⟩⟩ ∧
    alLookup (monitor_tick
        [("d1", (⟨"d1", "tv", 0, 0⟩ : DeviceSnapshot ℕ)),
          ("d2", ⟨"d2", "bedroom", 0.002, 0⟩)]
        [("d1", (⟨⟨"d1", "tv", 0, 0⟩⟩ : ListenerHandle ℕ)),
          ("d2", ⟨⟨"d2", "bedroom", 0, 0⟩⟩), ("d3", ⟨⟨"d3", "attic", 0, 0⟩⟩)]) "d3" =
      none := by
  have h := C8_reconciler_convergence ℕ
      [("d1", ⟨"d1", "tv", 0, 0⟩), ("d2", ⟨"d2", "bedroom", 0.002, 0⟩)]
      [("d1", ⟨⟨"d1", "tv", 0, 0⟩⟩), ("d2", ⟨⟨"d2", "bedroom", 0, 0⟩⟩),
        ("d3", ⟨⟨"d3", "attic", 0, 0⟩⟩)]
      (by decide)
  refine ⟨by decide, ?_, ?_, ?_⟩
  · have h1 := h.2.1 "d1" ⟨"d1", "tv", 0, 0⟩ ⟨⟨"d1", "tv", 0, 0⟩⟩ rfl rfl
    rw [h1]
    norm_num [_snapshot_changed]
  · have h2 := h.2.1 "d2" ⟨"d2", "bedroom", 0.002, 0⟩ ⟨⟨"d2", "bedroom", 0, 0⟩⟩ rfl rfl
    rw [h2]
    norm_num [_snapshot_changed]
    rw [abs_of_nonneg (by norm_num : (0 : ℚ) ≤ 1 / 500)]
    norm_num
  · exact h.2.2.2.1 "d3" rfl

end SBTV
